import Mathlib

/-!
Verification development for the structured-interview tool (src/app.py).

The Python source is shallowly embedded: dictionaries become association
lists (`List (String × _)`) or records whose fields carry the defaults the
source supplies through `.get(key, default)`; Python ints become `Int`;
the float `percent` becomes an exact `Rat` (the source only adds,
multiplies and divides small integers, so the idealisation only removes
IEEE rounding noise that no property here depends on); functions that can
raise become `Option`- or `Except`-valued.

String helpers (`pyStrip`, `pyLower`, `pyIntOfString`, the date check)
are written over `List Char` so that they reduce inside the kernel; they
model the ASCII behaviour of the Python `str.strip`, `str.lower`, `int`
and `datetime.strptime(value, "%Y-%m-%d")` calls used by the source.
-/

namespace InterviewTool

/-- Whitespace test matching the characters stripped by Python `str.strip`
(ASCII space and the control characters 9..13). -/
def isSpaceChar (c : Char) : Bool :=
  c.toNat = 32 || (9 ≤ c.toNat && c.toNat ≤ 13)

/-- Drop leading whitespace characters from a character list. -/
def dropLeadingSpaces : List Char → List Char
  | [] => []
  | c :: cs => if isSpaceChar c then dropLeadingSpaces cs else c :: cs

/-- Model of Python `str.strip()` (ASCII whitespace). -/
def pyStrip (s : String) : String :=
  ⟨((dropLeadingSpaces s.data).reverse |> dropLeadingSpaces).reverse⟩

/-- Lowercase one ASCII character. -/
def lowerChar (c : Char) : Char :=
  if 'A' ≤ c ∧ c ≤ 'Z' then Char.ofNat (c.toNat + 32) else c

/-- Model of Python `str.lower()` (ASCII range; the rubric priorities in
scope are plain ASCII words). -/
def pyLower (s : String) : String :=
  ⟨s.data.map lowerChar⟩

/-- Digit test, ASCII 0..9. -/
def isDigitChar (c : Char) : Bool :=
  48 ≤ c.toNat && c.toNat ≤ 57

/-- Numeric value of a digit list, most significant first. -/
def charsToNat (cs : List Char) : Nat :=
  cs.foldl (fun a c => a * 10 + (c.toNat - 48)) 0

/-- Model of Python `int(s)` on a string: optional sign, then at least one
digit, with surrounding whitespace allowed; anything else raises
`ValueError`, modelled as `none`. -/
def pyIntOfString (s : String) : Option Int :=
  match (pyStrip s).data with
  | [] => none
  | '-' :: rest =>
      if rest ≠ [] ∧ rest.all isDigitChar then some (-(charsToNat rest : Int)) else none
  | '+' :: rest =>
      if rest ≠ [] ∧ rest.all isDigitChar then some (charsToNat rest : Int) else none
  | cs => if cs.all isDigitChar then some (charsToNat cs : Int) else none

/-- Split a character list at every dash, keeping empty pieces. -/
def splitDash : List Char → List (List Char)
  | [] => [[]]
  | c :: cs =>
      if c = '-' then [] :: splitDash cs
      else
        match splitDash cs with
        | [] => [[c]]
        | p :: ps => (c :: p) :: ps

/-- Gregorian leap-year test, as used by Python `datetime`. -/
def isLeapYear (y : Nat) : Bool :=
  y % 4 = 0 && (y % 100 ≠ 0 || y % 400 = 0)

/-- Length of a month in the given year. -/
def daysInMonth (y m : Nat) : Nat :=
  if m = 2 then (if isLeapYear y then 29 else 28)
  else if m = 4 ∨ m = 6 ∨ m = 9 ∨ m = 11 then 30
  else 31

/-- Model of `is_valid_date_yyyy_mm_dd` (src/app.py line 81):
`datetime.strptime(value, "%Y-%m-%d")` succeeds exactly when the string is
`Y-M-D` with a four-digit year at least 1, a one- or two-digit month 1..12
and a one- or two-digit day valid for that month and year. -/
def is_valid_date_yyyy_mm_dd (value : String) : Bool :=
  match splitDash value.data with
  | [ys, ms, ds] =>
      (ys.length == 4 && ys.all isDigitChar &&
       decide (1 ≤ ms.length) && decide (ms.length ≤ 2) && ms.all isDigitChar &&
       decide (1 ≤ ds.length) && decide (ds.length ≤ 2) && ds.all isDigitChar) &&
      (let y := charsToNat ys
       let m := charsToNat ms
       let d := charsToNat ds
       decide (1 ≤ y) && decide (1 ≤ m) && decide (m ≤ 12) &&
       decide (1 ≤ d) && decide (d ≤ daysInMonth y m))
  | _ => false

/-- Per-trait interviewer input (the `trait_inputs` dictionary values of
src/app.py; `.get` defaults become record defaults, `raw_score` may be
unset). -/
structure TraitInput where
  raw_score : Option Int
  question_notes : String
  trait_notes : String
  verbatim_notes : String
  absolute_disqualifier : Bool
  deriving DecidableEq, Repr

/-- The default trait input created by `setdefault` in the source. -/
def defaultTraitInput : TraitInput :=
  { raw_score := none, question_notes := "", trait_notes := "",
    verbatim_notes := "", absolute_disqualifier := false }

/-- One rubric trait (the schema-required fields of src/app.py lines
140-149; the display-only descriptor and sample-answer ladders carry no
scoring information and are omitted). -/
structure Trait where
  id : String
  name : String
  priority : String
  weight : Int
  primary_question : String
  applicable_tracks : List String
  deriving DecidableEq, Repr

/-- One rubric track: label, maximum weighted total, and the displayed
threshold configuration read by `refresh_thresholds` with `.get`
(src/app.py lines 932-947), hence optional. -/
structure Track where
  label : String
  max_weighted_total : Int
  hire_percent : Option Int
  borderline_min_percent : Option Int
  borderline_max_percent : Option Int
  deriving DecidableEq, Repr

/-- The rubric document (tracks as an association list standing for the
JSON mapping). -/
structure Rubric where
  tracks : List (String × Track)
  traits : List Trait
  absolute_disqualifiers : List String
  deriving DecidableEq, Repr

/-- Model of `RubricLoader.get_traits_for_track` (src/app.py lines
154-164): a trait applies when its `applicable_tracks` contains `"all"`
or the track key, rubric order preserved.  `ScoringEngine.evaluate`
inlines the identical filter (lines 246-249). -/
def get_traits_for_track (rubric : Rubric) (track_key : String) : List Trait :=
  rubric.traits.filter fun t =>
    t.applicable_tracks.contains "all" || t.applicable_tracks.contains track_key

/-- One output row of the scoring engine (the dictionaries appended at
src/app.py lines 282-296). -/
structure ScoreRow where
  trait_id : String
  trait_name : String
  priority : String
  weight : Int
  raw_score : Int
  weighted_score : Int
  question_notes : String
  trait_notes : String
  verbatim_notes : String
  absolute_disqualifier : Bool
  primary_question : String
  deriving DecidableEq, Repr

/-- The scoring result dictionary (src/app.py lines 324-334). -/
structure ScoringResult where
  rows : List ScoreRow
  weighted_total : Int
  max_weighted_total : Int
  percent_of_max : Rat
  critical_eq_1 : Bool
  critical_lt_3 : Bool
  disqualifier_present : Bool
  locked_rule : Option String
  outcome : String
  deriving DecidableEq, Repr

/-- Effective raw score of a trait: `int(trait_results.get(tid, {}).get("raw_score", 0) or 0)`
(src/app.py line 264) — a missing entry or an unset score reads as 0. -/
def effRaw (trait_results : List (String × TraitInput)) (tid : String) : Int :=
  match List.lookup tid trait_results with
  | none => 0
  | some st => st.raw_score.getD 0

/-- Effective disqualifier flag: `bool(state.get("absolute_disqualifier", False))`. -/
def effDq (trait_results : List (String × TraitInput)) (tid : String) : Bool :=
  ((List.lookup tid trait_results).map (·.absolute_disqualifier)).getD false

/-- Effective question notes: `state.get("question_notes", "")`. -/
def effQNotes (trait_results : List (String × TraitInput)) (tid : String) : String :=
  ((List.lookup tid trait_results).map (·.question_notes)).getD ""

/-- Effective trait notes: `state.get("trait_notes", "")`. -/
def effTNotes (trait_results : List (String × TraitInput)) (tid : String) : String :=
  ((List.lookup tid trait_results).map (·.trait_notes)).getD ""

/-- Effective verbatim notes: `state.get("verbatim_notes", "")`. -/
def effVNotes (trait_results : List (String × TraitInput)) (tid : String) : String :=
  ((List.lookup tid trait_results).map (·.verbatim_notes)).getD ""

/-- Critical-priority test: `str(trait["priority"]).lower() == "critical"`
(src/app.py line 276). -/
def isCritical (t : Trait) : Bool :=
  pyLower t.priority == "critical"

/-- The row dictionary `ScoringEngine.evaluate` appends for one trait
(src/app.py lines 282-296). -/
def scoreRow (trait_results : List (String × TraitInput)) (t : Trait) : ScoreRow :=
  let raw := effRaw trait_results t.id
  { trait_id := t.id, trait_name := t.name, priority := t.priority,
    weight := t.weight, raw_score := raw, weighted_score := raw * t.weight,
    question_notes := effQNotes trait_results t.id,
    trait_notes := effTNotes trait_results t.id,
    verbatim_notes := effVNotes trait_results t.id,
    absolute_disqualifier := effDq trait_results t.id,
    primary_question := t.primary_question }

/-- Accumulator of the per-trait loop in `ScoringEngine.evaluate`
(src/app.py lines 251-296). -/
structure LoopAcc where
  rows : List ScoreRow
  weighted_total : Int
  critical_eq_1 : Bool
  critical_lt_3 : Bool
  disqualifier_present : Bool
  deriving DecidableEq, Repr

/-- The per-trait loop of `ScoringEngine.evaluate` (src/app.py lines
259-296): accumulate rows in order, add `raw * weight` to the total, and
latch the three override flags. -/
def evalLoop (trait_results : List (String × TraitInput)) :
    List Trait → LoopAcc → LoopAcc
  | [], acc => acc
  | t :: rest, acc =>
      let raw := effRaw trait_results t.id
      let crit := isCritical t
      evalLoop trait_results rest
        { rows := acc.rows ++ [scoreRow trait_results t],
          weighted_total := acc.weighted_total + raw * t.weight,
          critical_eq_1 := acc.critical_eq_1 || (crit && decide (raw = 1)),
          critical_lt_3 := acc.critical_lt_3 || (crit && decide (raw < 3)),
          disqualifier_present := acc.disqualifier_present || effDq trait_results t.id }

/-- Rounding of the displayed percent, `round(pct, 2)` (src/app.py line
328).  Python rounds ties to even; no property below touches a tie, so
round-half-up on exact rationals is used. -/
def round2 (q : Rat) : Rat :=
  ((q * 100 + 1 / 2).floor : Rat) / 100

/-- The percent computation of `ScoringEngine.evaluate`, src/app.py line
300: `(weighted_total / max_weighted) * 100 if max_weighted else 0.0`. -/
def trackPercent (track : Track) (weighted_total : Int) : Rat :=
  if track.max_weighted_total ≠ 0 then
    ((weighted_total : Rat) / (track.max_weighted_total : Rat)) * 100
  else 0

/-- The lock-rule text assignments of src/app.py lines 303-307: the
disqualifier message is written first and the critical message overwrites
it when both flags hold. -/
def lockedRuleFor (disqualifier_present critical_eq_1 : Bool) : Option String :=
  let locked0 : Option String :=
    if disqualifier_present then
      some "Any Absolute Disqualifier observed => Immediate NO HIRE"
    else none
  if critical_eq_1 then
    some "Any Critical trait raw score = 1 => Immediate NO HIRE"
  else locked0

/-- The outcome classification of src/app.py lines 309-322, with the
hard-coded literals 80, 65 and 79 of lines 317-319. -/
def decideOutcome (disqualifier_present critical_eq_1 critical_lt_3 : Bool)
    (pct : Rat) : String :=
  if disqualifier_present || critical_eq_1 then "No Hire"
  else if 80 ≤ pct ∧ critical_lt_3 = false then "Hire"
  else if (65 ≤ pct ∧ pct ≤ 79) ∧ critical_eq_1 = false then "Borderline"
  else "No Hire"

/-- Model of `ScoringEngine.evaluate` (src/app.py lines 240-334).  Fails
(`none`) exactly when `track_key` is not a key of `rubric.tracks`, where
the source raises `KeyError`.  Note the outcome thresholds are the
hard-coded literals 80, 65 and 79 of lines 317-319 — the per-track
threshold configuration is not consulted. -/
def evaluate (rubric : Rubric) (track_key : String)
    (trait_results : List (String × TraitInput)) : Option ScoringResult :=
  let traits := get_traits_for_track rubric track_key
  let acc := evalLoop trait_results traits ⟨[], 0, false, false, false⟩
  match List.lookup track_key rubric.tracks with
  | none => none
  | some track =>
      let pct := trackPercent track acc.weighted_total
      some { rows := acc.rows, weighted_total := acc.weighted_total,
             max_weighted_total := track.max_weighted_total, percent_of_max := round2 pct,
             critical_eq_1 := acc.critical_eq_1, critical_lt_3 := acc.critical_lt_3,
             disqualifier_present := acc.disqualifier_present,
             locked_rule := lockedRuleFor acc.disqualifier_present acc.critical_eq_1,
             outcome := decideOutcome acc.disqualifier_present acc.critical_eq_1
               acc.critical_lt_3 pct }

/-- The in-memory `InterviewState` dataclass (src/app.py lines 479-518). -/
structure InterviewState where
  candidate_name : String
  interview_date : String
  school : String
  track : String
  current_index : Int
  trait_inputs : List (String × TraitInput)
  deriving DecidableEq, Repr

/-- The fresh session built by `InterviewState(interview_date=date.today().isoformat())`
(src/app.py lines 558 and 782). -/
def fresh_session (today : String) : InterviewState :=
  { candidate_name := "", interview_date := today, school := "", track := "",
    current_index := 0, trait_inputs := [] }

/-- The navigation screens of the app that the modelled operations reach. -/
inductive Screen where
  | start
  | candidateInfo
  | traitScreen (idx : Int)
  deriving DecidableEq, Repr

/-- Where `show_trait_screen(idx)` lands (src/app.py lines 1109-1114): an
out-of-bounds index falls back to the candidate-info screen. -/
def show_trait_target (active : List Trait) (idx : Int) : Screen :=
  if idx < 0 ∨ (active.length : Int) ≤ idx then Screen.candidateInfo
  else Screen.traitScreen idx

/-- Validity set of the raw-score radio buttons: `raw in {1, 2, 3, 4, 5}`
(src/app.py line 1201). -/
def rawScoreValid15 (raw : Int) : Bool :=
  raw == 1 || raw == 2 || raw == 3 || raw == 4 || raw == 5

/-- Dictionary write `trait_inputs[tid] = v` where the key was ensured by
the `setdefault` at screen entry (src/app.py lines 1120-1129): replace the
entry if present, append it otherwise. -/
def setInput (inputs : List (String × TraitInput)) (tid : String) (v : TraitInput) :
    List (String × TraitInput) :=
  if inputs.any (fun p => p.1 == tid) then
    inputs.map (fun p => if p.1 == tid then (tid, v) else p)
  else inputs ++ [(tid, v)]

/-- The session as the successful persist step leaves it (the assignment
block of src/app.py lines 1205-1212): the five screen fields written back
into the current trait's input (notes stripped, as `.strip()` does) and
the 1-based position recorded; every other field untouched. -/
def persistedOf (s : InterviewState) (tid : String) (idx : Int)
    (raw : Int) (dq : Bool) (q_text t_text v_text : String) : InterviewState :=
  { s with
    trait_inputs := setInput s.trait_inputs tid
      { raw_score := some raw, question_notes := pyStrip q_text,
        trait_notes := pyStrip t_text, verbatim_notes := pyStrip v_text,
        absolute_disqualifier := dq },
    current_index := idx + 1 }

/-- Model of `show_trait_screen.persist_state` (src/app.py lines
1195-1213) for the screen of trait `tid` at position `idx`: reject
(`none`) when the selected raw score is not 1..5, otherwise write the
screen fields back.  No other condition is checked here. -/
def persist_state (s : InterviewState) (tid : String) (idx : Int)
    (raw : Int) (dq : Bool) (q_text t_text v_text : String) : Option InterviewState :=
  if rawScoreValid15 raw = false then none
  else some (persistedOf s tid idx raw dq q_text t_text v_text)

/-- Model of `show_trait_screen.go_back` (src/app.py lines 1215-1218): on
a rejected persist the app stays on the current trait screen with the
session untouched; otherwise it navigates to `idx - 1` (which falls back
to candidate info from the first trait). -/
def go_back (active : List Trait) (s : InterviewState) (idx : Int) (tid : String)
    (raw : Int) (dq : Bool) (q_text t_text v_text : String) : InterviewState × Screen :=
  match persist_state s tid idx raw dq q_text t_text v_text with
  | none => (s, Screen.traitScreen idx)
  | some s2 => (s2, show_trait_target active (idx - 1))

/-- Model of `show_trait_screen.go_next` (src/app.py lines 1220-1228): on
a rejected persist the app stays put with the session untouched; moving
forward from the last trait is a no-op transition that stays on it. -/
def go_next (active : List Trait) (s : InterviewState) (idx : Int) (tid : String)
    (raw : Int) (dq : Bool) (q_text t_text v_text : String) : InterviewState × Screen :=
  match persist_state s tid idx raw dq q_text t_text v_text with
  | none => (s, Screen.traitScreen idx)
  | some s2 =>
      if idx + 1 < (active.length : Int) then (s2, show_trait_target active (idx + 1))
      else (s2, Screen.traitScreen idx)

/-- The named reasons `validate_before_finalize` raises `ValueError` with
(src/app.py lines 1284-1302), one constructor per message. -/
inductive ValidationFailure where
  | nameRequired
  | dateInvalid
  | schoolRequired
  | trackRequired
  | missingRawScore (trait_name : String)
  | disqualifierNeedsNotes (trait_name : String)
  deriving DecidableEq, Repr

/-- Raw-score membership test of the validator,
`tstate.get("raw_score") not in {1, 2, 3, 4, 5}` (src/app.py line 1297). -/
def rawScoreValidOpt : Option Int → Bool
  | none => false
  | some n => rawScoreValid15 n

/-- The per-trait half of `validate_before_finalize` (src/app.py lines
1293-1302): traits are checked in resolution order, each one first for a
valid raw score and then for the disqualifier-notes rule, stopping at the
first failure. -/
def validateTraits (trait_inputs : List (String × TraitInput)) :
    List Trait → Except ValidationFailure Unit
  | [] => Except.ok ()
  | t :: rest =>
      match List.lookup t.id trait_inputs with
      | none => Except.error (ValidationFailure.missingRawScore t.name)
      | some st =>
          if rawScoreValidOpt st.raw_score = false then
            Except.error (ValidationFailure.missingRawScore t.name)
          else if st.absolute_disqualifier = true ∧ pyStrip st.verbatim_notes = "" then
            Except.error (ValidationFailure.disqualifierNeedsNotes t.name)
          else validateTraits trait_inputs rest

/-- Model of `InterviewApp.validate_before_finalize` (src/app.py lines
1277-1302): the four header checks in source order, then the per-trait
checks over the traits resolved for the selected track. -/
def validate_before_finalize (rubric : Rubric) (s : InterviewState) :
    Except ValidationFailure Unit :=
  if pyStrip s.candidate_name = "" then Except.error ValidationFailure.nameRequired
  else if is_valid_date_yyyy_mm_dd (pyStrip s.interview_date) = false then
    Except.error ValidationFailure.dateInvalid
  else if pyStrip s.school = "" then Except.error ValidationFailure.schoolRequired
  else if s.track = "" then Except.error ValidationFailure.trackRequired
  else validateTraits s.trait_inputs (get_traits_for_track rubric s.track)

/-- Outcome of one `finalize` button press (src/app.py lines 1241-1263).
`invalidScore` is the persist-gate rejection (session untouched); `failed`
is any exception caught by the handler after the screen inputs were
persisted (validation failure, or the lookup error of `evaluate`), with
the session as the handler leaves it; `success` carries the session and
the computed scoring.  On success the source only calls
`show_start_screen()` — it does not touch `self.state`.  The report
export itself is an external collaborator and is not modelled. -/
inductive FinalizeResult where
  | invalidScore
  | failed (state : InterviewState)
  | success (state : InterviewState) (scoring : ScoringResult)
  deriving DecidableEq, Repr

/-- Model of `show_trait_screen.finalize` on the screen of trait `tid` at
position `idx` (src/app.py lines 1241-1263). -/
def finalize (rubric : Rubric) (s : InterviewState) (tid : String) (idx : Int)
    (raw : Int) (dq : Bool) (q_text t_text v_text : String) : FinalizeResult :=
  match persist_state s tid idx raw dq q_text t_text v_text with
  | none => FinalizeResult.invalidScore
  | some s2 =>
      match validate_before_finalize rubric s2 with
      | Except.error _ => FinalizeResult.failed s2
      | Except.ok _ =>
          match evaluate rubric s2.track s2.trait_inputs with
          | none => FinalizeResult.failed s2
          | some scoring => FinalizeResult.success s2 scoring

/-- Success test on a finalize outcome. -/
def FinalizeResult.isSuccess : FinalizeResult → Bool
  | FinalizeResult.success _ _ => true
  | _ => false

/-- The in-memory session after a finalize attempt, when the attempt got
past the persist gate. -/
def FinalizeResult.sessionAfter : FinalizeResult → Option InterviewState
  | FinalizeResult.invalidScore => none
  | FinalizeResult.failed st => some st
  | FinalizeResult.success st _ => some st

/-- A JSON scalar in the `current_index` slot of a draft payload: the
values `int(...)` is applied to. -/
inductive JInt where
  | num (n : Int)
  | str (s : String)
  deriving DecidableEq, Repr

/-- Model of `int(payload.get("current_index", 0) or 0)` (src/app.py line
808): an absent or null or falsy value reads as 0, a number passes
through, a string is parsed and a non-numeric string raises `ValueError`
(`none`). -/
def coerceCurrentIndex : Option JInt → Option Int
  | none => some 0
  | some (JInt.num n) => some n
  | some (JInt.str s) => if s = "" then some 0 else pyIntOfString s

/-- The `candidate` block of a draft payload, each key read with `.get`
and a default (src/app.py lines 803-807). -/
structure CandidateBlock where
  name : Option String
  interview_date : Option String
  school : Option String
  track : Option String
  deriving DecidableEq, Repr

/-- A parsed draft payload (src/app.py lines 803-809). -/
structure DraftPayload where
  candidate : Option CandidateBlock
  current_index : Option JInt
  trait_inputs : Option (List (String × TraitInput))
  deriving DecidableEq, Repr

/-- Outcome of `open_draft`: `error` carries the in-memory session as the
exception handler leaves it, `ok` carries the session, the recomputed
active-trait list and the screen navigated to. -/
inductive OpenDraftResult where
  | error (state : InterviewState)
  | ok (state : InterviewState) (active_traits : List Trait) (screen : Screen)
  deriving DecidableEq, Repr

/-- The in-memory session recorded in an open-draft outcome. -/
def OpenDraftResult.stateAfter : OpenDraftResult → InterviewState
  | OpenDraftResult.error st => st
  | OpenDraftResult.ok st _ _ => st

/-- Model of `InterviewApp.open_draft` (src/app.py lines 786-820).
`loaded = none` stands for `load_draft` raising (unreadable file or
malformed JSON), which the handler catches before any assignment ran.
Otherwise the source assigns the four candidate fields one by one, then
evaluates `int(...)` on `current_index` — whose `ValueError` is caught
only after those four assignments already mutated the session — then
assigns `current_index` and `trait_inputs` and navigates:  with a track
recorded it recomputes the active traits and jumps to
`max(0, current_index - 1)` (out-of-bounds indices fall back to candidate
info inside `show_trait_screen`), with no track it keeps the previous
active traits (`active0`) and shows candidate info. -/
def open_draft (rubric : Rubric) (s : InterviewState) (active0 : List Trait)
    (today : String) (loaded : Option DraftPayload) : OpenDraftResult :=
  match loaded with
  | none => OpenDraftResult.error s
  | some payload =>
      let cand := payload.candidate.getD
        { name := none, interview_date := none, school := none, track := none }
      let s1 : InterviewState :=
        { s with
          candidate_name := cand.name.getD "",
          interview_date := cand.interview_date.getD today,
          school := cand.school.getD "",
          track := cand.track.getD "" }
      match coerceCurrentIndex payload.current_index with
      | none => OpenDraftResult.error s1
      | some ci =>
          let s2 : InterviewState :=
            { s1 with current_index := ci, trait_inputs := payload.trait_inputs.getD [] }
          if s2.track ≠ "" then
            let active := get_traits_for_track rubric s2.track
            OpenDraftResult.ok s2 active (show_trait_target active (max 0 (ci - 1)))
          else OpenDraftResult.ok s2 active0 Screen.candidateInfo

/-! Specification-level vocabulary: direct, loop-free descriptions of the
aggregates the scoring loop computes, used to state the claims.  Each is
proved equal to the corresponding loop output below. -/

/-- Sum of `raw * weight` over the active traits. -/
def spec_weighted_total (rubric : Rubric) (track_key : String)
    (trait_results : List (String × TraitInput)) : Int :=
  ((get_traits_for_track rubric track_key).map fun t =>
    effRaw trait_results t.id * t.weight).sum

/-- Some active trait has its absolute-disqualifier flag set. -/
def spec_disqualifier_present (rubric : Rubric) (track_key : String)
    (trait_results : List (String × TraitInput)) : Bool :=
  (get_traits_for_track rubric track_key).any fun t => effDq trait_results t.id

/-- Some active critical-priority trait has effective raw score 1. -/
def spec_critical_eq_1 (rubric : Rubric) (track_key : String)
    (trait_results : List (String × TraitInput)) : Bool :=
  (get_traits_for_track rubric track_key).any fun t =>
    isCritical t && decide (effRaw trait_results t.id = 1)

/-- Some active critical-priority trait has effective raw score below 3. -/
def spec_critical_lt_3 (rubric : Rubric) (track_key : String)
    (trait_results : List (String × TraitInput)) : Bool :=
  (get_traits_for_track rubric track_key).any fun t =>
    isCritical t && decide (effRaw trait_results t.id < 3)

/-- The scoring loop computes exactly the mapped rows, the weighted sum
and the three latched any-flags. -/
theorem evalLoop_spec (trait_results : List (String × TraitInput))
    (ts : List Trait) (acc : LoopAcc) :
    evalLoop trait_results ts acc =
      { rows := acc.rows ++ ts.map (scoreRow trait_results),
        weighted_total :=
          acc.weighted_total + (ts.map fun t => effRaw trait_results t.id * t.weight).sum,
        critical_eq_1 := acc.critical_eq_1 ||
          ts.any fun t => isCritical t && decide (effRaw trait_results t.id = 1),
        critical_lt_3 := acc.critical_lt_3 ||
          ts.any fun t => isCritical t && decide (effRaw trait_results t.id < 3),
        disqualifier_present := acc.disqualifier_present ||
          ts.any fun t => effDq trait_results t.id } := by
  induction ts generalizing acc with
  | nil => simp [evalLoop]
  | cons t rest ih =>
      simp only [evalLoop, ih, List.map_cons, List.sum_cons, List.any_cons]
      congr 1 <;> simp [Bool.or_assoc, add_assoc]

/-- Closed form of `evaluate` when the track key resolves. -/
theorem evaluate_eq_some (rubric : Rubric) (track_key : String)
    (trait_results : List (String × TraitInput)) (track : Track)
    (h : List.lookup track_key rubric.tracks = some track) :
    evaluate rubric track_key trait_results = some
      { rows := (get_traits_for_track rubric track_key).map (scoreRow trait_results),
        weighted_total := spec_weighted_total rubric track_key trait_results,
        max_weighted_total := track.max_weighted_total,
        percent_of_max :=
          round2 (trackPercent track (spec_weighted_total rubric track_key trait_results)),
        critical_eq_1 := spec_critical_eq_1 rubric track_key trait_results,
        critical_lt_3 := spec_critical_lt_3 rubric track_key trait_results,
        disqualifier_present := spec_disqualifier_present rubric track_key trait_results,
        locked_rule :=
          lockedRuleFor (spec_disqualifier_present rubric track_key trait_results)
            (spec_critical_eq_1 rubric track_key trait_results),
        outcome :=
          decideOutcome (spec_disqualifier_present rubric track_key trait_results)
            (spec_critical_eq_1 rubric track_key trait_results)
            (spec_critical_lt_3 rubric track_key trait_results)
            (trackPercent track (spec_weighted_total rubric track_key trait_results)) } := by
  simp only [evaluate]
  rw [evalLoop_spec, h]
  simp [spec_weighted_total, spec_critical_eq_1, spec_critical_lt_3,
    spec_disqualifier_present]

/-- A missing track key makes `evaluate` fail (the `KeyError` of line 299). -/
theorem evaluate_eq_none (rubric : Rubric) (track_key : String)
    (trait_results : List (String × TraitInput))
    (h : List.lookup track_key rubric.tracks = none) :
    evaluate rubric track_key trait_results = none := by
  unfold evaluate
  rw [h]

/-- A critical trait scoring exactly 1 also scores below 3, flag-wise. -/
theorem spec_eq1_imp_lt3 (rubric : Rubric) (track_key : String)
    (trait_results : List (String × TraitInput))
    (h : spec_critical_eq_1 rubric track_key trait_results = true) :
    spec_critical_lt_3 rubric track_key trait_results = true := by
  simp only [spec_critical_eq_1, List.any_eq_true, Bool.and_eq_true,
    decide_eq_true_eq] at h
  obtain ⟨t, ht, hcrit, hraw⟩ := h
  simp only [spec_critical_lt_3, List.any_eq_true, Bool.and_eq_true,
    decide_eq_true_eq]
  exact ⟨t, ht, hcrit, by omega⟩

/-- Completeness of one trait entry as the finalization validator checks
it: the input exists, its raw score is 1..5, and a set disqualifier flag
comes with non-blank verbatim notes. -/
def traitEntryComplete (trait_inputs : List (String × TraitInput)) (t : Trait) : Bool :=
  match List.lookup t.id trait_inputs with
  | none => false
  | some st =>
      rawScoreValidOpt st.raw_score &&
      (!st.absolute_disqualifier || !(pyStrip st.verbatim_notes == ""))

/-- The per-trait validator pass succeeds exactly when every listed trait
has a complete entry. -/
theorem validateTraits_ok_iff (trait_inputs : List (String × TraitInput))
    (ts : List Trait) :
    validateTraits trait_inputs ts = Except.ok () ↔
      ∀ t ∈ ts, traitEntryComplete trait_inputs t = true := by
  induction ts with
  | nil => simp [validateTraits]
  | cons t rest ih =>
      simp only [List.mem_cons, forall_eq_or_imp]
      cases h : List.lookup t.id trait_inputs with
      | none => simp [validateTraits, h, traitEntryComplete]
      | some st =>
          by_cases hraw : rawScoreValidOpt st.raw_score = false
          · simp [validateTraits, h, traitEntryComplete, hraw]
          · replace hraw : rawScoreValidOpt st.raw_score = true := by simpa using hraw
            by_cases hdq : st.absolute_disqualifier = true ∧ pyStrip st.verbatim_notes = ""
            · simp [validateTraits, h, traitEntryComplete, hraw, hdq.1, hdq.2]
            · have hcond : (!st.absolute_disqualifier || !(pyStrip st.verbatim_notes == "")) = true := by
                by_cases hf : st.absolute_disqualifier = true
                · have hn : ¬ pyStrip st.verbatim_notes = "" := fun hn => hdq ⟨hf, hn⟩
                  simp [hf, hn]
                · simp only [Bool.not_eq_true] at hf
                  simp [hf]
              simp [validateTraits, h, traitEntryComplete, hraw, hcond, hdq, ih]

/-! Concrete fixtures used by witnesses and counterexamples. -/

/-- Fixture: a trait applicable to every track. -/
def fxTrait (tid nm prio : String) (w : Int) : Trait :=
  { id := tid, name := nm, priority := prio, weight := w,
    primary_question := "Q-" ++ tid, applicable_tracks := ["all"] }

/-- Fixture: a track whose displayed thresholds are hire 80 and
borderline 65-79, out of a maximum weighted total of 100. -/
def fxTrack80 : Track :=
  { label := "Preschool", max_weighted_total := 100, hire_percent := some 80,
    borderline_min_percent := some 65, borderline_max_percent := some 79 }

/-- Fixture: a trait input with the given score, flag and verbatim notes. -/
def fxInput (raw : Option Int) (dq : Bool) (vn : String) : TraitInput :=
  { raw_score := raw, question_notes := "", trait_notes := "",
    verbatim_notes := vn, absolute_disqualifier := dq }

/-- C2: with the selected track resolvable, any active trait flagged as an
absolute disqualifier, or any active critical-priority trait at raw score
1, forces the outcome "No Hire" regardless of every other value. -/
theorem evaluate_overrides_force_no_hire (rubric : Rubric) (track_key : String)
    (trait_results : List (String × TraitInput)) (track : Track)
    (htrack : List.lookup track_key rubric.tracks = some track)
    (hflag : (spec_disqualifier_present rubric track_key trait_results ||
              spec_critical_eq_1 rubric track_key trait_results) = true) :
    (evaluate rubric track_key trait_results).map (·.outcome) = some "No Hire" := by
  rw [evaluate_eq_some rubric track_key trait_results track htrack]
  simp [decideOutcome, hflag]

/-- Witness for C2: a session at a perfect percent with one disqualifier
flag still comes out "No Hire". -/
theorem evaluate_overrides_force_no_hire_witness :
    (spec_disqualifier_present
        { tracks := [("pre", fxTrack80)],
          traits := [fxTrait "t1" "Warmth" "standard" 20],
          absolute_disqualifiers := [] } "pre"
        [("t1", fxInput (some 5) true "seen")] ||
      spec_critical_eq_1
        { tracks := [("pre", fxTrack80)],
          traits := [fxTrait "t1" "Warmth" "standard" 20],
          absolute_disqualifiers := [] } "pre"
        [("t1", fxInput (some 5) true "seen")]) = true ∧
    (evaluate
        { tracks := [("pre", fxTrack80)],
          traits := [fxTrait "t1" "Warmth" "standard" 20],
          absolute_disqualifiers := [] } "pre"
        [("t1", fxInput (some 5) true "seen")]).map (·.outcome) = some "No Hire" :=
  ⟨by decide,
   evaluate_overrides_force_no_hire _ "pre" _ fxTrack80 (by decide) (by decide)⟩

/-- C7: with the selected track resolvable, the result has exactly one row
per active trait in rubric order, a trait with no recorded input still
yields a defaulted row (raw 0, weighted 0, flag false, empty notes), and
the weighted total is the sum of raw times weight over the active traits. -/
theorem evaluate_rows_exactly_active (rubric : Rubric) (track_key : String)
    (trait_results : List (String × TraitInput)) (track : Track)
    (htrack : List.lookup track_key rubric.tracks = some track) :
    (evaluate rubric track_key trait_results).map (·.rows) =
      some ((get_traits_for_track rubric track_key).map (scoreRow trait_results)) ∧
    (evaluate rubric track_key trait_results).map (·.weighted_total) =
      some (((get_traits_for_track rubric track_key).map fun t =>
        effRaw trait_results t.id * t.weight).sum) ∧
    (∀ t : Trait, List.lookup t.id trait_results = none →
      scoreRow trait_results t =
        { trait_id := t.id, trait_name := t.name, priority := t.priority,
          weight := t.weight, raw_score := 0, weighted_score := 0,
          question_notes := "", trait_notes := "", verbatim_notes := "",
          absolute_disqualifier := false, primary_question := t.primary_question }) := by
  refine ⟨?_, ?_, ?_⟩
  · rw [evaluate_eq_some _ _ _ _ htrack]
    rfl
  · rw [evaluate_eq_some _ _ _ _ htrack]
    rfl
  · intro t ht
    simp [scoreRow, effRaw, effDq, effQNotes, effTNotes, effVNotes, ht]

/-- Witness for C7: one of two active traits was never opened and still
contributes a zero row, while the total sums the active traits. -/
theorem evaluate_rows_exactly_active_witness :
    List.lookup "pre"
      (Rubric.tracks
        { tracks := [("pre", fxTrack80)],
          traits := [fxTrait "t1" "Warmth" "standard" 20,
                     fxTrait "t2" "Rigor" "standard" 5],
          absolute_disqualifiers := [] }) = some fxTrack80 ∧
    (evaluate
        { tracks := [("pre", fxTrack80)],
          traits := [fxTrait "t1" "Warmth" "standard" 20,
                     fxTrait "t2" "Rigor" "standard" 5],
          absolute_disqualifiers := [] } "pre"
        [("t1", fxInput (some 4) false "")]).map (·.weighted_total) =
      some (((get_traits_for_track
        { tracks := [("pre", fxTrack80)],
          traits := [fxTrait "t1" "Warmth" "standard" 20,
                     fxTrait "t2" "Rigor" "standard" 5],
          absolute_disqualifiers := [] } "pre").map fun t =>
            effRaw [("t1", fxInput (some 4) false "")] t.id * t.weight).sum) :=
  ⟨by decide,
   (evaluate_rows_exactly_active _ "pre" _ fxTrack80 (by decide)).2.1⟩

/-- C9: in any result the engine returns, the critical-equals-1 flag
implies the critical-below-3 flag; the pair (true, false) is impossible. -/
theorem evaluate_critical_flags_consistent (rubric : Rubric) (track_key : String)
    (trait_results : List (String × TraitInput))
    (h : (evaluate rubric track_key trait_results).map (·.critical_eq_1) = some true) :
    (evaluate rubric track_key trait_results).map (·.critical_lt_3) = some true := by
  cases htrack : List.lookup track_key rubric.tracks with
  | none =>
      rw [evaluate_eq_none _ _ _ htrack] at h
      simp at h
  | some track =>
      rw [evaluate_eq_some _ _ _ _ htrack] at h ⊢
      simp at h ⊢
      exact spec_eq1_imp_lt3 _ _ _ h

/-- Witness for C9: a critical trait scored 1 sets both flags. -/
theorem evaluate_critical_flags_consistent_witness :
    (evaluate
        { tracks := [("pre", fxTrack80)],
          traits := [fxTrait "c1" "Safety" "critical" 10],
          absolute_disqualifiers := [] } "pre"
        [("c1", fxInput (some 1) false "")]).map (·.critical_eq_1) = some true ∧
    (evaluate
        { tracks := [("pre", fxTrack80)],
          traits := [fxTrait "c1" "Safety" "critical" 10],
          absolute_disqualifiers := [] } "pre"
        [("c1", fxInput (some 1) false "")]).map (·.critical_lt_3) = some true :=
  ⟨by decide, evaluate_critical_flags_consistent _ "pre" _ (by decide)⟩

/-- C10: an active trait whose recorded raw score is an integer outside
1..5 neither fails nor is clamped: the engine still returns a result, the
row for that trait carries the out-of-range score and contributes
`raw * weight`, and the weighted total is the plain sum over active
traits. -/
theorem evaluate_total_on_out_of_range (rubric : Rubric) (track_key : String)
    (trait_results : List (String × TraitInput)) (track : Track) (t : Trait)
    (st : TraitInput) (rv : Int)
    (htrack : List.lookup track_key rubric.tracks = some track)
    (hmem : t ∈ get_traits_for_track rubric track_key)
    (hst : List.lookup t.id trait_results = some st)
    (hraw : st.raw_score = some rv)
    (_hout : rv < 1 ∨ 5 < rv) :
    (evaluate rubric track_key trait_results).isSome = true ∧
    scoreRow trait_results t ∈
      ((evaluate rubric track_key trait_results).map (·.rows)).getD [] ∧
    (scoreRow trait_results t).raw_score = rv ∧
    (scoreRow trait_results t).weighted_score = rv * t.weight ∧
    (evaluate rubric track_key trait_results).map (·.weighted_total) =
      some (spec_weighted_total rubric track_key trait_results) := by
  have heff : effRaw trait_results t.id = rv := by
    simp [effRaw, hst, hraw]
  refine ⟨?_, ?_, ?_, ?_, ?_⟩
  · rw [evaluate_eq_some _ _ _ _ htrack]; rfl
  · rw [evaluate_eq_some _ _ _ _ htrack]
    simpa using List.mem_map_of_mem (scoreRow trait_results) hmem
  · simp [scoreRow, heff]
  · simp [scoreRow, heff]
  · rw [evaluate_eq_some _ _ _ _ htrack]
    rfl

/-- Fixture for the C10 witness: one weight-7 trait scored -2. -/
def c10_rubric : Rubric :=
  { tracks := [("pre", fxTrack80)],
    traits := [fxTrait "t1" "Warmth" "standard" 7],
    absolute_disqualifiers := [] }

/-- Fixture for the C10 witness: the recorded inputs. -/
def c10_inputs : List (String × TraitInput) :=
  [("t1", fxInput (some (-2)) false "")]

/-- Witness for C10: a raw score of -2 on a weight-7 trait contributes -14
to the total and appears verbatim in its row. -/
theorem evaluate_total_on_out_of_range_witness :
    List.lookup "t1" c10_inputs = some (fxInput (some (-2)) false "") ∧
    ((-2 : Int) < 1 ∨ (5 : Int) < -2) ∧
    (scoreRow c10_inputs (fxTrait "t1" "Warmth" "standard" 7)).weighted_score = -2 * 7 ∧
    (evaluate c10_rubric "pre" c10_inputs).isSome = true :=
  ⟨by decide, Or.inl (by decide),
   (evaluate_total_on_out_of_range c10_rubric "pre" c10_inputs fxTrack80
      (fxTrait "t1" "Warmth" "standard" 7) (fxInput (some (-2)) false "") (-2)
      (by decide) (by decide) (by decide) (by decide) (Or.inl (by decide))).2.2.2.1,
   (evaluate_total_on_out_of_range c10_rubric "pre" c10_inputs fxTrack80
      (fxTrait "t1" "Warmth" "standard" 7) (fxInput (some (-2)) false "") (-2)
      (by decide) (by decide) (by decide) (by decide) (Or.inl (by decide))).1⟩

/-- Modelled from the spec: the outcome classification claim C1 states,
read with the words of spec sections 4.3 step 7 and 6 — Hire iff the
unrounded percent reaches the SELECTED TRACK'S configured hire minimum
and no critical trait is below 3, else Borderline iff the percent lies in
the track's configured borderline band, else No Hire.  The source
(`decideOutcome`) hard-codes 80/65/79 instead; this definition exists to
be compared against it.  A missing configured threshold reads as 0, the
tracks in scope configure all three. -/
def claimed_track_threshold_outcome (track : Track) (pct : Rat)
    (critical_lt_3 : Bool) : String :=
  if ((track.hire_percent.getD 0 : Int) : Rat) ≤ pct ∧ critical_lt_3 = false then "Hire"
  else if ((track.borderline_min_percent.getD 0 : Int) : Rat) ≤ pct ∧
      pct ≤ ((track.borderline_max_percent.getD 0 : Int) : Rat) then "Borderline"
  else "No Hire"

/-- Fixture for the C1 counterexample: a track configured with hire
minimum 90 and borderline band 50-70. -/
def c1_track : Track :=
  { label := "Strict", max_weighted_total := 100, hire_percent := some 90,
    borderline_min_percent := some 50, borderline_max_percent := some 70 }

/-- Fixture for the C1 counterexample. -/
def c1_rubric : Rubric :=
  { tracks := [("strict", c1_track)],
    traits := [fxTrait "t1" "Warmth" "standard" 17],
    absolute_disqualifiers := [] }

/-- Fixture for the C1 counterexample: a session at 85 percent. -/
def c1_inputs : List (String × TraitInput) :=
  [("t1", fxInput (some 5) false "")]

/-- Counterexample to C1: at 85 percent with no overrides on a track whose
configured hire minimum is 90 (borderline band 50-70), the source returns
"Hire", while classification against the configured thresholds — what C1
claims — would give "No Hire".  The engine does not consult the
configured thresholds. -/
theorem c1_counterexample :
    spec_disqualifier_present c1_rubric "strict" c1_inputs = false ∧
    spec_critical_eq_1 c1_rubric "strict" c1_inputs = false ∧
    trackPercent c1_track (spec_weighted_total c1_rubric "strict" c1_inputs) = 85 ∧
    (evaluate c1_rubric "strict" c1_inputs).map (·.outcome) = some "Hire" ∧
    claimed_track_threshold_outcome c1_track
      (trackPercent c1_track (spec_weighted_total c1_rubric "strict" c1_inputs))
      (spec_critical_lt_3 c1_rubric "strict" c1_inputs) = "No Hire" := by
  have hwt : spec_weighted_total c1_rubric "strict" c1_inputs = 85 := by decide
  have hpct : trackPercent c1_track (85 : Int) = 85 := by
    norm_num [trackPercent, c1_track]
  have hlt3 : spec_critical_lt_3 c1_rubric "strict" c1_inputs = false := by decide
  refine ⟨by decide, by decide, by rw [hwt, hpct], ?_, ?_⟩
  · rw [evaluate_eq_some c1_rubric "strict" c1_inputs c1_track (by decide)]
    rw [hwt]
    simp only [Option.map_some']
    norm_num [decideOutcome, hpct, hlt3]
    all_goals decide
  · rw [hwt, hpct, hlt3]
    norm_num [claimed_track_threshold_outcome, c1_track]

/-- C1 (amended): with the selected track resolvable, no absolute
disqualifier and no critical trait at raw score 1, the outcome is
classified against the HARD-CODED thresholds of src/app.py lines 317-319:
Hire iff the unrounded percent is at least 80 and no critical trait
scored below 3, otherwise Borderline iff 65 <= percent <= 79, otherwise
No Hire.  The selected track's configured thresholds are not consulted. -/
theorem evaluate_fixed_threshold_classification (rubric : Rubric)
    (track_key : String) (trait_results : List (String × TraitInput)) (track : Track)
    (htrack : List.lookup track_key rubric.tracks = some track)
    (hdq : spec_disqualifier_present rubric track_key trait_results = false)
    (heq1 : spec_critical_eq_1 rubric track_key trait_results = false) :
    (evaluate rubric track_key trait_results).map (·.outcome) = some
      (if 80 ≤ trackPercent track (spec_weighted_total rubric track_key trait_results) ∧
          spec_critical_lt_3 rubric track_key trait_results = false then "Hire"
       else if 65 ≤ trackPercent track (spec_weighted_total rubric track_key trait_results) ∧
          trackPercent track (spec_weighted_total rubric track_key trait_results) ≤ 79 then
         "Borderline"
       else "No Hire") := by
  rw [evaluate_eq_some _ _ _ _ htrack]
  simp [decideOutcome, hdq, heq1, and_assoc]

/-- Fixture for the C1 witness: an 80-percent session. -/
def c1w_rubric : Rubric :=
  { tracks := [("pre", fxTrack80)],
    traits := [fxTrait "t1" "Warmth" "standard" 20],
    absolute_disqualifiers := [] }

/-- Fixture for the C1 witness. -/
def c1w_inputs : List (String × TraitInput) :=
  [("t1", fxInput (some 4) false "")]

/-- Witness for the amended C1 at a concrete 80-percent session. -/
theorem evaluate_fixed_threshold_classification_witness :
    List.lookup "pre" c1w_rubric.tracks = some fxTrack80 ∧
    spec_disqualifier_present c1w_rubric "pre" c1w_inputs = false ∧
    spec_critical_eq_1 c1w_rubric "pre" c1w_inputs = false ∧
    (evaluate c1w_rubric "pre" c1w_inputs).map (·.outcome) = some
      (if 80 ≤ trackPercent fxTrack80 (spec_weighted_total c1w_rubric "pre" c1w_inputs) ∧
          spec_critical_lt_3 c1w_rubric "pre" c1w_inputs = false then "Hire"
       else if 65 ≤ trackPercent fxTrack80 (spec_weighted_total c1w_rubric "pre" c1w_inputs) ∧
          trackPercent fxTrack80 (spec_weighted_total c1w_rubric "pre" c1w_inputs) ≤ 79 then
         "Borderline"
       else "No Hire") :=
  ⟨by decide, by decide, by decide,
   evaluate_fixed_threshold_classification c1w_rubric "pre" c1w_inputs fxTrack80
     (by decide) (by decide) (by decide)⟩

/-- Fixture for C3: exactly 80 percent, no critical trait, no flag. -/
def c3_rubricA : Rubric :=
  { tracks := [("pre", fxTrack80)],
    traits := [fxTrait "t1" "Warmth" "standard" 20],
    absolute_disqualifiers := [] }

/-- Fixture for C3: scenario A inputs (raw 4, weight 20: 80 of 100). -/
def c3_inputsA : List (String × TraitInput) :=
  [("t1", fxInput (some 4) false "")]

/-- Fixture for C3: exactly 79 percent. -/
def c3_rubricB : Rubric :=
  { tracks := [("pre", fxTrack80)],
    traits := [fxTrait "t1" "Warmth" "standard" 79],
    absolute_disqualifiers := [] }

/-- Fixture for C3: scenario B inputs (raw 1, weight 79: 79 of 100). -/
def c3_inputsB : List (String × TraitInput) :=
  [("t1", fxInput (some 1) false "")]

/-- Fixture for C3: exactly 64 percent. -/
def c3_rubricC : Rubric :=
  { tracks := [("pre", fxTrack80)],
    traits := [fxTrait "t1" "Warmth" "standard" 16],
    absolute_disqualifiers := [] }

/-- Fixture for C3: scenario C inputs (raw 4, weight 16: 64 of 100). -/
def c3_inputsC : List (String × TraitInput) :=
  [("t1", fxInput (some 4) false "")]

/-- Fixture for C3: a critical trait beside a standard one. -/
def c3_rubricD : Rubric :=
  { tracks := [("pre", fxTrack80)],
    traits := [fxTrait "c1" "Safety" "critical" 10,
               fxTrait "t2" "Rigor" "standard" 9],
    absolute_disqualifiers := [] }

/-- Fixture for C3: scenario D inputs — the critical trait at raw 2
(20 points) and the standard trait at raw 5 (45 points): 65 of 100. -/
def c3_inputsD : List (String × TraitInput) :=
  [("c1", fxInput (some 2) false ""), ("t2", fxInput (some 5) false "")]

/-- Counterexample to C3: at exactly 65 percent with a critical trait at
raw score 2 (no disqualifier, no critical trait at 1) the source returns
"Borderline" — the Borderline branch tests `critical_eq_1`, not
`critical_lt_3` — not the "No Hire" the claim states. -/
theorem c3_counterexample :
    trackPercent fxTrack80 (spec_weighted_total c3_rubricD "pre" c3_inputsD) = 65 ∧
    spec_critical_lt_3 c3_rubricD "pre" c3_inputsD = true ∧
    spec_critical_eq_1 c3_rubricD "pre" c3_inputsD = false ∧
    spec_disqualifier_present c3_rubricD "pre" c3_inputsD = false ∧
    (evaluate c3_rubricD "pre" c3_inputsD).map (·.outcome) = some "Borderline" ∧
    (evaluate c3_rubricD "pre" c3_inputsD).map (·.outcome) ≠ some "No Hire" := by
  have hwt : spec_weighted_total c3_rubricD "pre" c3_inputsD = 65 := by decide
  have hpct : trackPercent fxTrack80 (65 : Int) = 65 := by
    norm_num [trackPercent, fxTrack80]
  have hout : (evaluate c3_rubricD "pre" c3_inputsD).map (·.outcome) = some "Borderline" := by
    rw [evaluate_eq_some c3_rubricD "pre" c3_inputsD fxTrack80 (by decide)]
    rw [hwt]
    simp only [Option.map_some']
    norm_num [decideOutcome, hpct]
    all_goals decide
  refine ⟨by rw [hwt, hpct], by decide, by decide, by decide, hout, ?_⟩
  rw [hout]
  simp

/-- C3 (amended): against the fixed thresholds (hire at 80, borderline
65-79): exactly 80 percent with no critical trait below 3 and no
disqualifier is Hire; exactly 79 percent is Borderline; exactly 64
percent is No Hire; and exactly 65 percent with a critical trait at raw
score 2 is Borderline (not No Hire: the Borderline branch is gated on a
critical trait at 1, which is absent). -/
theorem evaluate_threshold_examples :
    (trackPercent fxTrack80 (spec_weighted_total c3_rubricA "pre" c3_inputsA) = 80 ∧
      (evaluate c3_rubricA "pre" c3_inputsA).map (·.outcome) = some "Hire") ∧
    (trackPercent fxTrack80 (spec_weighted_total c3_rubricB "pre" c3_inputsB) = 79 ∧
      (evaluate c3_rubricB "pre" c3_inputsB).map (·.outcome) = some "Borderline") ∧
    (trackPercent fxTrack80 (spec_weighted_total c3_rubricC "pre" c3_inputsC) = 64 ∧
      (evaluate c3_rubricC "pre" c3_inputsC).map (·.outcome) = some "No Hire") ∧
    (trackPercent fxTrack80 (spec_weighted_total c3_rubricD "pre" c3_inputsD) = 65 ∧
      spec_critical_lt_3 c3_rubricD "pre" c3_inputsD = true ∧
      (evaluate c3_rubricD "pre" c3_inputsD).map (·.outcome) = some "Borderline") := by
  have hwA : spec_weighted_total c3_rubricA "pre" c3_inputsA = 80 := by decide
  have hpA : trackPercent fxTrack80 (80 : Int) = 80 := by
    norm_num [trackPercent, fxTrack80]
  have hwB : spec_weighted_total c3_rubricB "pre" c3_inputsB = 79 := by decide
  have hpB : trackPercent fxTrack80 (79 : Int) = 79 := by
    norm_num [trackPercent, fxTrack80]
  have hwC : spec_weighted_total c3_rubricC "pre" c3_inputsC = 64 := by decide
  have hpC : trackPercent fxTrack80 (64 : Int) = 64 := by
    norm_num [trackPercent, fxTrack80]
  have hwD : spec_weighted_total c3_rubricD "pre" c3_inputsD = 65 := by decide
  have hpD : trackPercent fxTrack80 (65 : Int) = 65 := by
    norm_num [trackPercent, fxTrack80]
  refine ⟨⟨by rw [hwA, hpA], ?_⟩, ⟨by rw [hwB, hpB], ?_⟩,
          ⟨by rw [hwC, hpC], ?_⟩, ⟨by rw [hwD, hpD], by decide, ?_⟩⟩
  · rw [evaluate_eq_some c3_rubricA "pre" c3_inputsA fxTrack80 (by decide), hwA]
    simp only [Option.map_some']
    norm_num [decideOutcome, hpA]
    all_goals decide
  · rw [evaluate_eq_some c3_rubricB "pre" c3_inputsB fxTrack80 (by decide), hwB]
    simp only [Option.map_some']
    norm_num [decideOutcome, hpB]
    all_goals decide
  · rw [evaluate_eq_some c3_rubricC "pre" c3_inputsC fxTrack80 (by decide), hwC]
    simp only [Option.map_some']
    norm_num [decideOutcome, hpC]
  · rw [evaluate_eq_some c3_rubricD "pre" c3_inputsD fxTrack80 (by decide), hwD]
    simp only [Option.map_some']
    norm_num [decideOutcome, hpD]
    all_goals decide

/-- Fixture for C4: two active traits. -/
def c4_active : List Trait :=
  [fxTrait "t1" "Warmth" "standard" 5, fxTrait "t2" "Rigor" "standard" 5]

/-- Fixture for C4: a session on the first trait screen. -/
def c4_state : InterviewState :=
  { candidate_name := "Ana", interview_date := "2024-03-04", school := "Hawthorne",
    track := "pre", current_index := 1,
    trait_inputs := [("t1", defaultTraitInput), ("t2", defaultTraitInput)] }

/-- Counterexample to C4: with the disqualifier flag set and EMPTY
verbatim notes (raw score 3), the forward transition is nevertheless
accepted — the screen advances from trait 1 to trait 2 and the session
now stores the flagged input with empty notes.  The claim says such a
transition must be rejected with the position unchanged. -/
theorem c4_counterexample :
    (go_next c4_active c4_state 0 "t1" 3 true "" "" "").2 = Screen.traitScreen 1 ∧
    Screen.traitScreen 1 ≠ Screen.traitScreen 0 ∧
    List.lookup "t1" (go_next c4_active c4_state 0 "t1" 3 true "" "" "").1.trait_inputs =
      some { raw_score := some 3, question_notes := "", trait_notes := "",
             verbatim_notes := "", absolute_disqualifier := true } := by
  decide

/-- C4 (amended): leaving a trait screen in either direction is gated ONLY
on the raw score being an integer 1..5; the disqualifier/verbatim-notes
rule is not checked at navigation time (only at finalization).  When the
gate rejects, both transitions leave the session and the screen exactly
unchanged; when it passes, both persist the screen inputs, `go_back`
targets `idx - 1` (falling back to candidate info from the first trait)
and `go_next` targets `idx + 1`, staying on the last trait at the end. -/
theorem trait_navigation_gate (active : List Trait) (s : InterviewState)
    (idx : Int) (tid : String) (raw : Int) (dq : Bool) (q_text t_text v_text : String) :
    (rawScoreValid15 raw = false →
      go_next active s idx tid raw dq q_text t_text v_text = (s, Screen.traitScreen idx) ∧
      go_back active s idx tid raw dq q_text t_text v_text = (s, Screen.traitScreen idx)) ∧
    (rawScoreValid15 raw = true →
      go_next active s idx tid raw dq q_text t_text v_text =
        (persistedOf s tid idx raw dq q_text t_text v_text,
         if idx + 1 < (active.length : Int) then show_trait_target active (idx + 1)
         else Screen.traitScreen idx) ∧
      go_back active s idx tid raw dq q_text t_text v_text =
        (persistedOf s tid idx raw dq q_text t_text v_text,
         show_trait_target active (idx - 1))) := by
  constructor
  · intro h
    constructor <;> simp [go_next, go_back, persist_state, h]
  · intro h
    refine ⟨?_, ?_⟩
    · simp [go_next, persist_state, h]
      split <;> rfl
    · simp [go_back, persist_state, h]

/-- Witness for the amended C4: with a valid raw score 3 (disqualifier
set, notes empty) both transitions go through on a concrete session. -/
theorem trait_navigation_gate_witness :
    rawScoreValid15 3 = true ∧
    (go_next c4_active c4_state 0 "t2" 3 true "" "" "" =
       (persistedOf c4_state "t2" 0 3 true "" "" "",
        if (0 : Int) + 1 < (c4_active.length : Int) then show_trait_target c4_active (0 + 1)
        else Screen.traitScreen 0) ∧
     go_back c4_active c4_state 0 "t2" 3 true "" "" "" =
       (persistedOf c4_state "t2" 0 3 true "" "" "",
        show_trait_target c4_active (0 - 1))) :=
  ⟨by decide,
   (trait_navigation_gate c4_active c4_state 0 "t2" 3 true "" "" "").2 (by decide)⟩

/-- Fixture for C5: a one-trait rubric the session below completes. -/
def c5_rubric : Rubric :=
  { tracks := [("pre", fxTrack80)],
    traits := [fxTrait "t1" "Warmth" "standard" 20],
    absolute_disqualifiers := [] }

/-- Fixture for C5: a fully filled-in session about to finalize. -/
def c5_state : InterviewState :=
  { candidate_name := "Alice", interview_date := "2024-03-04", school := "Hawthorne",
    track := "pre", current_index := 1, trait_inputs := [("t1", defaultTraitInput)] }

/-- Counterexample to C5: a successful finalize leaves the session as the
persist step wrote it — candidate name still "Alice", track still
selected — not replaced by a fresh empty session (whose candidate name
would be empty).  The source only navigates back to the start screen; the
reset happens in `new_interview`. -/
theorem c5_counterexample :
    (finalize c5_rubric c5_state "t1" 0 5 false "" "" "").isSuccess = true ∧
    (finalize c5_rubric c5_state "t1" 0 5 false "" "" "").sessionAfter =
      some (persistedOf c5_state "t1" 0 5 false "" "" "") ∧
    (persistedOf c5_state "t1" 0 5 false "" "" "").candidate_name = "Alice" ∧
    (fresh_session "2024-03-04").candidate_name = "" ∧
    persistedOf c5_state "t1" 0 5 false "" "" "" ≠ fresh_session "2024-03-04" := by
  decide

/-- C5 (amended): finalize never resets the session.  Whenever it
succeeds, the in-memory session afterwards is exactly the persisted
session: the candidate name, interview date, school and track all survive
unchanged from before the press (only the current trait's input and the
position were updated by the persist step).  A fresh empty session is
created only by the new-interview action. -/
theorem finalize_success_retains_session (rubric : Rubric) (s : InterviewState)
    (tid : String) (idx : Int) (raw : Int) (dq : Bool) (q_text t_text v_text : String)
    (h : (finalize rubric s tid idx raw dq q_text t_text v_text).isSuccess = true) :
    (finalize rubric s tid idx raw dq q_text t_text v_text).sessionAfter =
      some (persistedOf s tid idx raw dq q_text t_text v_text) ∧
    (persistedOf s tid idx raw dq q_text t_text v_text).candidate_name = s.candidate_name ∧
    (persistedOf s tid idx raw dq q_text t_text v_text).interview_date = s.interview_date ∧
    (persistedOf s tid idx raw dq q_text t_text v_text).school = s.school ∧
    (persistedOf s tid idx raw dq q_text t_text v_text).track = s.track := by
  refine ⟨?_, rfl, rfl, rfl, rfl⟩
  by_cases hr : rawScoreValid15 raw = false
  · simp [finalize, persist_state, hr, FinalizeResult.isSuccess] at h
  · cases hv : validate_before_finalize rubric
        (persistedOf s tid idx raw dq q_text t_text v_text) with
    | error e =>
        simp [finalize, persist_state, hr, hv, FinalizeResult.isSuccess] at h
    | ok u =>
        cases he : evaluate rubric (persistedOf s tid idx raw dq q_text t_text v_text).track
            (persistedOf s tid idx raw dq q_text t_text v_text).trait_inputs with
        | none =>
            simp [finalize, persist_state, hr, hv, he, FinalizeResult.isSuccess] at h
        | some sc =>
            simp [finalize, persist_state, hr, hv, he, FinalizeResult.sessionAfter]

/-- Witness for the amended C5: the concrete successful finalize of the
counterexample session indeed hands back the persisted session. -/
theorem finalize_success_retains_session_witness :
    (finalize c5_rubric c5_state "t1" 0 4 false "" "" "").isSuccess = true ∧
    (finalize c5_rubric c5_state "t1" 0 4 false "" "" "").sessionAfter =
      some (persistedOf c5_state "t1" 0 4 false "" "" "") :=
  ⟨by decide,
   (finalize_success_retains_session c5_rubric c5_state "t1" 0 4 false "" "" ""
      (by decide)).1⟩

/-- Fixture for C6: the rubric in scope when the draft is opened. -/
def c6_rubric : Rubric :=
  { tracks := [("pre", fxTrack80)],
    traits := [fxTrait "t1" "Warmth" "standard" 20],
    absolute_disqualifiers := [] }

/-- Fixture for C6: the session before the open-draft attempt. -/
def c6_state : InterviewState :=
  { candidate_name := "Old", interview_date := "2024-01-01", school := "X",
    track := "pre", current_index := 3,
    trait_inputs := [("t1", fxInput (some 4) false "")] }

/-- Fixture for C6: a parsed draft whose `current_index` is the
non-numeric string "abc", so `int(...)` raises mid-assignment. -/
def c6_payload : DraftPayload :=
  { candidate := some { name := some "New", interview_date := some "2024-02-02",
                        school := some "Y", track := some "pre" },
    current_index := some (JInt.str "abc"),
    trait_inputs := some [] }

/-- Fixture for C6: the partially mutated session the failed open leaves
behind — new candidate fields, old position and old trait inputs. -/
def c6_mutated : InterviewState :=
  { candidate_name := "New", interview_date := "2024-02-02", school := "Y",
    track := "pre", current_index := 3,
    trait_inputs := [("t1", fxInput (some 4) false "")] }

/-- Counterexample to C6: opening a draft that parses but whose
`current_index` is not convertible fails AFTER the four candidate fields
were assigned: the session is left partially mutated, not as it was. -/
theorem c6_counterexample :
    open_draft c6_rubric c6_state [] "2026-10-12" (some c6_payload) =
      OpenDraftResult.error c6_mutated ∧
    c6_mutated ≠ c6_state ∧
    c6_mutated.candidate_name = "New" ∧ c6_state.candidate_name = "Old" ∧
    c6_mutated.current_index = c6_state.current_index ∧
    c6_mutated.trait_inputs = c6_state.trait_inputs := by
  decide

/-- C6 (amended): when the draft file cannot be read or parsed the
session is untouched; but when the parsed payload's `current_index` fails
integer conversion, the failed open leaves the session partially mutated
— the four candidate fields already hold the payload values while the
position and the trait inputs keep their previous values. -/
theorem open_draft_failure_mutation (rubric : Rubric) (s : InterviewState)
    (active0 : List Trait) (today : String) :
    open_draft rubric s active0 today none = OpenDraftResult.error s ∧
    (∀ p : DraftPayload, coerceCurrentIndex p.current_index = none →
      open_draft rubric s active0 today (some p) =
        OpenDraftResult.error
          { candidate_name := (p.candidate.getD ⟨none, none, none, none⟩).name.getD "",
            interview_date :=
              (p.candidate.getD ⟨none, none, none, none⟩).interview_date.getD today,
            school := (p.candidate.getD ⟨none, none, none, none⟩).school.getD "",
            track := (p.candidate.getD ⟨none, none, none, none⟩).track.getD "",
            current_index := s.current_index,
            trait_inputs := s.trait_inputs }) := by
  refine ⟨rfl, ?_⟩
  intro p hp
  simp [open_draft, hp]

/-- Witness for the amended C6 at the concrete malformed payload. -/
theorem open_draft_failure_mutation_witness :
    coerceCurrentIndex c6_payload.current_index = none ∧
    open_draft c6_rubric c6_state [] "2026-10-12" (some c6_payload) =
      OpenDraftResult.error c6_mutated :=
  ⟨by decide,
   (open_draft_failure_mutation c6_rubric c6_state [] "2026-10-12").2 c6_payload
     (by decide)⟩

/-- C8: the finalization validator succeeds exactly when the candidate
name is non-blank, the interview date is a valid YYYY-MM-DD calendar
date, the school/location is non-blank, a track key is selected, and
every trait resolved for that track has an input with raw score in
{1,2,3,4,5} whose set disqualifier flag comes with non-blank verbatim
notes; each of the four header checks short-circuits with its specific
named reason in source order, and the per-trait checks run per trait in
resolution order (`validateTraits`). -/
theorem validate_before_finalize_characterization (rubric : Rubric) (s : InterviewState) :
    (validate_before_finalize rubric s = Except.ok () ↔
      (pyStrip s.candidate_name ≠ "" ∧
       is_valid_date_yyyy_mm_dd (pyStrip s.interview_date) = true ∧
       pyStrip s.school ≠ "" ∧
       s.track ≠ "" ∧
       ∀ t ∈ get_traits_for_track rubric s.track,
         traitEntryComplete s.trait_inputs t = true)) ∧
    (pyStrip s.candidate_name = "" →
      validate_before_finalize rubric s = Except.error ValidationFailure.nameRequired) ∧
    (pyStrip s.candidate_name ≠ "" →
      is_valid_date_yyyy_mm_dd (pyStrip s.interview_date) = false →
      validate_before_finalize rubric s = Except.error ValidationFailure.dateInvalid) ∧
    (pyStrip s.candidate_name ≠ "" →
      is_valid_date_yyyy_mm_dd (pyStrip s.interview_date) = true →
      pyStrip s.school = "" →
      validate_before_finalize rubric s = Except.error ValidationFailure.schoolRequired) ∧
    (pyStrip s.candidate_name ≠ "" →
      is_valid_date_yyyy_mm_dd (pyStrip s.interview_date) = true →
      pyStrip s.school ≠ "" →
      s.track = "" →
      validate_before_finalize rubric s = Except.error ValidationFailure.trackRequired) := by
  by_cases h1 : pyStrip s.candidate_name = ""
  · simp [validate_before_finalize, h1]
  · by_cases h2 : is_valid_date_yyyy_mm_dd (pyStrip s.interview_date) = false
    · simp [validate_before_finalize, h1, h2]
    · replace h2 : is_valid_date_yyyy_mm_dd (pyStrip s.interview_date) = true := by
        simpa using h2
      by_cases h3 : pyStrip s.school = ""
      · simp [validate_before_finalize, h1, h2, h3]
      · by_cases h4 : s.track = ""
        · simp [validate_before_finalize, h1, h2, h3, h4]
        · simp [validate_before_finalize, h1, h2, h3, h4, validateTraits_ok_iff]

/-- Fixture for the C8 witness: a complete session for a one-trait track. -/
def c8_rubric : Rubric :=
  { tracks := [("pre", fxTrack80)],
    traits := [fxTrait "t1" "Warmth" "standard" 20],
    absolute_disqualifiers := [] }

/-- Fixture for the C8 witness. -/
def c8_state : InterviewState :=
  { candidate_name := "Bea", interview_date := "2024-02-29", school := "Palmdale",
    track := "pre", current_index := 1,
    trait_inputs := [("t1", fxInput (some 3) false "")] }

/-- Witness for C8: the complete session passes the gate, and blanking the
name makes the gate fail with exactly the name reason. -/
theorem validate_before_finalize_characterization_witness :
    validate_before_finalize c8_rubric c8_state = Except.ok () ∧
    validate_before_finalize c8_rubric { c8_state with candidate_name := " " } =
      Except.error ValidationFailure.nameRequired :=
  ⟨(validate_before_finalize_characterization c8_rubric c8_state).1.mpr (by decide),
   (validate_before_finalize_characterization c8_rubric
      { c8_state with candidate_name := " " }).2.1 (by decide)⟩

end InterviewTool
